import Mathlib

set_option autoImplicit false

/-!
Shallow embedding of `src/stream-q/src/lib.rs`: a PyO3 adapter exposing the
AWS Q Business bidirectional chat stream to Python as an async iterator.
Pure data flow is embedded directly; the async plumbing (futures, the tokio
mutex) is modelled by explicit state passing, which is adequate because the
`Arc<Mutex<..>>` around the receiver serialises pulls.
-/

namespace StreamQ

/-- Inbound protocol event (`ChatOutputStream`): the match in
`QChatStream::__anext__` distinguishes `TextEvent`, `MetadataEvent`, and a
catch-all arm, modelled here by the `other` constructor. All payload fields
are optional in the SDK types. -/
inductive InboundEvent where
  | textEvent (system_message : Option String)
  | metadataEvent (conversation_id user_message_id system_message_id : Option String)
  | other
  deriving DecidableEq

/-- Public output value (the `Output` pyclass): four optional fields. In the
source only the `text` field carries the getter attribute. -/
structure Output where
  text : Option String
  chat_id : Option String
  user_msg_id : Option String
  sys_msg_id : Option String
  deriving DecidableEq

/-- Embeds `Output::text(value)`: a text output, metadata fields all absent. -/
def Output.mkText (value : String) : Output :=
  { text := some value, chat_id := none, sys_msg_id := none, user_msg_id := none }

/-- Embeds `Output::metadata(chat_id, user_msg, sys_msg)`. -/
def Output.mkMetadata (chat_id user_msg sys_msg : String) : Output :=
  { text := none, chat_id := some chat_id, user_msg_id := some user_msg,
    sys_msg_id := some sys_msg }

/-- Names of the `Output` fields exposed to Python as readable attributes:
in the source only `text` is annotated with a pyo3 getter; `chat_id`,
`user_msg_id` and `sys_msg_id` carry no getter attribute. -/
def Output.pyReadable : List String := ["text"]

/-- Embeds `Output::__repr__` (also used for `__str__`): a populated `text`
renders as Text(..); otherwise the metadata rendering substitutes the empty
string for each absent identifier. -/
def Output.pyRepr (o : Output) : String :=
  match o.text with
  | some t => "Text(" ++ t ++ ")"
  | none =>
      "Metadata\x7bChatId: " ++ o.chat_id.getD "" ++ ", Sys: " ++ o.sys_msg_id.getD ""
        ++ ", Usr: " ++ o.user_msg_id.getD "" ++ "\x7d"

/-- Result of decoding one inbound event inside `__anext__`: either an
`Output` value to hand to the caller, or a Rust panic (an `Option::unwrap`
applied to `None`). -/
inductive DecodeResult where
  | emit (o : Output)
  | panic
  deriving DecidableEq

/-- Embeds the match on `next_event` in `QChatStream::__anext__`
(src/stream-q/src/lib.rs lines 159-167): a text event yields
`Output::text(system_message.unwrap_or(""))`; a metadata event unwraps all
three identifier fields unconditionally, which panics when one is absent;
every other variant yields `Output::text("")`. -/
def decodeEvent : InboundEvent → DecodeResult
  | .textEvent sm => .emit (Output.mkText (sm.getD ""))
  | .metadataEvent (some c) (some u) (some s) => .emit (Output.mkMetadata c u s)
  | .metadataEvent _ _ _ => .panic
  | .other => .emit (Output.mkText "")

/-- The inbound stream handle (the SDK `EventReceiver` held behind
`Arc<Mutex<..>>`), modelled as the queue of frames not yet received. Each
frame is either a decoded event or a receive error rendered to a string
(the `e.to_string()` the source raises). Once the queue is empty, `recv`
reports end of stream on every call. -/
structure Receiver where
  items : List (Except String InboundEvent)

/-- Embeds `EventReceiver::recv` as consumed by `__anext__`: pops the head
frame, or signals `Ok(None)` at end of stream. -/
def Receiver.recv (r : Receiver) : Except String (Option InboundEvent) × Receiver :=
  match r.items with
  | [] => (Except.ok none, ⟨[]⟩)
  | i :: rest => (i.map some, ⟨rest⟩)

/-- Outcome of one `__anext__` pull as observed by the Python caller. -/
inductive PullResult where
  | output (o : Output)
  | stopAsyncIteration
  | exn (msg : String)
  | panicked
  deriving DecidableEq

/-- Embeds one pull of `QChatStream::__anext__` (lines 142-174): receive the
next frame under the lock; a receive error raises a Python exception carrying
the rendered cause; `Ok(None)` raises StopAsyncIteration; otherwise the event
is decoded and the resulting `Output` returned. -/
def anext (r : Receiver) : PullResult × Receiver :=
  match r.recv with
  | (Except.error e, r2) => (.exn e, r2)
  | (Except.ok none, r2) => (.stopAsyncIteration, r2)
  | (Except.ok (some ev), r2) =>
      match decodeEvent ev with
      | .emit o => (.output o, r2)
      | .panic => (.panicked, r2)

/-- Results of `n` successive pulls against one iterator. -/
def runPulls : Receiver → Nat → List PullResult
  | _, 0 => []
  | r, n + 1 =>
      let p := anext r
      p.1 :: runPulls p.2 n

/-- The pull outcome a single successfully received event produces. -/
def pullOfEvent (e : InboundEvent) : PullResult :=
  match decodeEvent e with
  | .emit o => .output o
  | .panic => .panicked

/-- Embeds the `QChatStream` pyclass: a handle on the inbound receiver. -/
structure QChatStream where
  inner : Receiver

/-- Embeds `QChatStream::__aiter__` (lines 138-140), which returns `slf`. -/
def QChatStream.aiter (s : QChatStream) : QChatStream := s

/-- Embeds the SDK `TextInputEvent`: `user_message` is its required member. -/
structure TextInputEvent where
  user_message : String
  deriving DecidableEq

/-- Embeds the `TextInputEvent` builder chain used in `chat_async`: `build()`
fails exactly when the required `user_message` member was never set, and the
source unwraps that result. -/
def buildTextInputEvent (user_message : Option String) : Option TextInputEvent :=
  user_message.map TextInputEvent.mk

/-- Outbound event union `ChatInputStream` (the variants `chat_async` uses). -/
inductive ChatInputStream where
  | textEvent (e : TextInputEvent)
  | endOfInputEvent
  deriving DecidableEq

/-- Embeds the `inputs` vector built in `chat_async` (lines 69-72). The
`build().unwrap()` of the source is modelled by returning `none` when the
builder fails, so a `some` result is the panic-free construction. -/
def chatInputs (query : String) : Option (List ChatInputStream) :=
  (buildTextInputEvent (some query)).map fun t =>
    [ChatInputStream.textEvent t, ChatInputStream.endOfInputEvent]

/-- Transport-level rejection of a chat call; `debug_service_error` is the
Debug rendering of `e.into_service_error()` that the source formats into the
raised exception. -/
structure SdkError where
  debug_service_error : String
  deriving DecidableEq

/-- Embeds `ChatOutput` as `QBusiness::chat` reads it: the `output_stream`
field is the inbound stream of the established chat, here its frame queue. -/
structure ChatOutput where
  output_stream : List (Except String InboundEvent)

/-- Embeds the async body of `QBusiness::chat` (lines 54-60), applied to the
outcome of the single `send()` issued by `chat_async`: a transport error is
rendered into a Python exception message and no handle is produced; success
wraps the output stream into a `QChatStream`. -/
def chat (resp : Except SdkError ChatOutput) : Except String QChatStream :=
  match resp with
  | .error e => .error e.debug_service_error
  | .ok r => .ok ⟨⟨r.output_stream⟩⟩

/-- True exactly on the success variant of an `Except` value. -/
def exOk {α β : Type} : Except α β → Bool
  | .ok _ => true
  | .error _ => false

/-- Embeds the SDK `Application` entry: `application_id` is optional. -/
structure Application where
  application_id : Option String
  deriving DecidableEq

/-- Embeds `ListApplicationsOutput`: the `applications` list is optional. -/
structure ListApplicationsOutput where
  applications : Option (List Application)
  deriving DecidableEq

/-- Transport error of `list_applications`; `debug_repr` is the Debug
rendering the source formats into the raised exception message. -/
structure TransportError where
  debug_repr : String
  deriving DecidableEq

/-- Embeds the async body of `QBusiness::list_applications` (lines 36-48):
a transport error raises an exception carrying the Debug rendering; on
success the optional `applications` list defaults to empty and is
filter-mapped over `application_id`. -/
def list_applications (resp : Except TransportError ListApplicationsOutput) :
    Except String (List String) :=
  match resp with
  | .error e => .error e.debug_repr
  | .ok out => .ok ((out.applications.getD []).filterMap Application.application_id)

/-- Specification-side description of the success result of
`list_applications`: the identifiers of exactly those entries whose
identifier field is present, in their original order. -/
def presentIds : List Application → List String
  | [] => []
  | a :: rest =>
      match a.application_id with
      | some i => i :: presentIds rest
      | none => presentIds rest

lemma anext_cons (i : Except String InboundEvent) (rest : List (Except String InboundEvent)) :
    anext ⟨i :: rest⟩
      = (match i with
          | .error e => PullResult.exn e
          | .ok ev => pullOfEvent ev,
         (⟨rest⟩ : Receiver)) := by
  cases i with
  | error e => rfl
  | ok ev =>
      cases h : decodeEvent ev <;>
        simp [anext, Receiver.recv, Except.map, pullOfEvent, h]

lemma runPulls_eq (items : List (Except String InboundEvent)) (k : Nat) :
    runPulls ⟨items⟩ (items.length + k)
      = items.map (fun i => match i with
          | .error e => PullResult.exn e
          | .ok ev => pullOfEvent ev)
        ++ List.replicate k PullResult.stopAsyncIteration := by
  induction items generalizing k with
  | nil =>
      simp only [List.length_nil, Nat.zero_add, List.map_nil, List.nil_append]
      induction k with
      | zero => rfl
      | succ n ih => simp [runPulls, anext, Receiver.recv, List.replicate_succ, ih]
  | cons i rest ih =>
      have hlen : (i :: rest).length + k = (rest.length + k) + 1 := by
        simp [List.length_cons]; omega
      rw [hlen]
      simp only [runPulls, anext_cons, List.map_cons, List.cons_append]
      exact congrArg _ (ih k)

end StreamQ

namespace StreamQ

/-- C1 counterexample: a pull over a stream holding one event that is neither
a text chunk nor a metadata event returns an Output (the empty text) to the
caller — the catch-all arm of `__anext__` emits rather than skips. -/
theorem other_variant_yields_output :
    anext ⟨[Except.ok InboundEvent.other]⟩
      = (PullResult.output (Output.mkText ""), (⟨[]⟩ : Receiver)) := rfl

/-- C1 (amended): every successfully received inbound event produces exactly
one pull result, in order, and an event of an unrecognised variant produces
the Output Text("") rather than being skipped; the stream is not terminated
by such events, and the next `k` pulls after the events are consumed signal
exhaustion. -/
theorem every_event_yields_one_pull (events : List InboundEvent) (k : Nat) :
    runPulls ⟨events.map Except.ok⟩ (events.length + k)
      = events.map pullOfEvent ++ List.replicate k PullResult.stopAsyncIteration
    ∧ pullOfEvent InboundEvent.other = PullResult.output (Output.mkText "") := by
  constructor
  · have h := runPulls_eq (events.map Except.ok) k
    simpa [List.map_map, Function.comp] using h
  · rfl

/-- C2: the decoder in `__anext__` unwraps the three metadata identifier
fields unconditionally, so a Metadata event missing `system_message_id`
panics instead of failing with a MalformedMetadataError. -/
theorem metadata_missing_field_panics :
    decodeEvent (InboundEvent.metadataEvent (some "c") (some "u") none)
      = DecodeResult.panic := rfl

/-- C3: for every query string, the outbound input sequence of `chat_async`
is built without error and is exactly the two events TextTurn(query) then
EndOfInput, in that order. -/
theorem chatInputs_two_events (q : String) :
    chatInputs q
      = some [ChatInputStream.textEvent ⟨q⟩, ChatInputStream.endOfInputEvent] := rfl

/-- C4 counterexample: after a pull fails with a receive error, the iterator
does not latch the failure — the following pulls signal exhaustion, not the
same failure, so Failed is not a terminal re-signalled state. -/
theorem failed_pull_not_latched :
    runPulls ⟨[Except.error "boom"]⟩ 3
      = [PullResult.exn "boom", PullResult.stopAsyncIteration,
         PullResult.stopAsyncIteration]
    ∧ PullResult.stopAsyncIteration ≠ PullResult.exn "boom" :=
  ⟨rfl, fun h => PullResult.noConfusion h⟩

/-- C4 (amended): exhaustion is terminal and idempotent — once the pulls
consuming the inbound frames have run, every further pull deterministically
re-signals exhaustion and never yields a further Output; a failed pull,
however, is not latched (see the counterexample). -/
theorem exhaustion_idempotent (items : List (Except String InboundEvent)) (k : Nat) :
    runPulls ⟨items⟩ (items.length + k)
      = runPulls ⟨items⟩ items.length
        ++ List.replicate k PullResult.stopAsyncIteration := by
  have h1 := runPulls_eq items k
  have h2 := runPulls_eq items 0
  simp only [Nat.add_zero, List.replicate_zero, List.append_nil] at h2
  rw [h1, h2]

/-- C6: a chat call yields exactly one of a stream handle or an error — on
transport rejection an error carrying the rendered service error and no
handle, on acceptance a `QChatStream` wrapping the output stream — and the
success of the call matches the success of the single submission. -/
theorem chat_handle_xor_error :
    (∀ e, chat (Except.error e) = Except.error e.debug_service_error)
    ∧ (∀ r, chat (Except.ok r) = Except.ok ⟨⟨r.output_stream⟩⟩)
    ∧ (∀ resp, exOk (chat resp) = exOk resp) := by
  refine ⟨fun e => rfl, fun r => rfl, fun resp => ?_⟩
  cases resp <;> rfl

/-- C7: a text chunk whose message payload is absent decodes to
Emit(Text("")) — the absent payload is normalized to the empty string, not
an error — and a present payload decodes to Emit(Text(message)). -/
theorem textchunk_absent_normalizes :
    decodeEvent (InboundEvent.textEvent none) = DecodeResult.emit (Output.mkText "")
    ∧ ∀ s, decodeEvent (InboundEvent.textEvent (some s))
        = DecodeResult.emit (Output.mkText s) :=
  ⟨rfl, fun _ => rfl⟩

/-- C8 counterexample: none of the three metadata identifier fields is among
the attributes of `Output` exposed with a Python getter — only `text` is
readable on the Output type. -/
theorem metadata_ids_not_readable :
    ¬ ("chat_id" ∈ Output.pyReadable)
    ∧ ¬ ("user_msg_id" ∈ Output.pyReadable)
    ∧ ¬ ("sys_msg_id" ∈ Output.pyReadable) := by
  refine ⟨?_, ?_, ?_⟩ <;> decide

/-- C8 (amended): a metadata Output carries the three identifiers in its
fields and its textual rendering exposes them, but the only attribute with a
Python getter is `text`, so a caller observes the identifiers only through
the rendering. -/
theorem metadata_ids_internal_and_rendered (c u s : String) :
    (Output.mkMetadata c u s).chat_id = some c
    ∧ (Output.mkMetadata c u s).user_msg_id = some u
    ∧ (Output.mkMetadata c u s).sys_msg_id = some s
    ∧ (Output.mkMetadata c u s).pyRepr
        = "Metadata\x7bChatId: " ++ c ++ ", Sys: " ++ s ++ ", Usr: " ++ u ++ "\x7d"
    ∧ Output.pyReadable = ["text"] :=
  ⟨rfl, rfl, rfl, rfl, rfl⟩

/-- C9: on success `list_applications` returns, in order, exactly the
identifiers of the entries whose identifier field is present (silently
omitting the rest), and on transport error it fails with the Debug rendering
of the underlying cause. -/
theorem list_applications_spec :
    (∀ e, list_applications (Except.error e) = Except.error e.debug_repr)
    ∧ (∀ out, list_applications (Except.ok out)
        = Except.ok (presentIds (out.applications.getD []))) := by
  have hfm : ∀ l : List Application,
      l.filterMap Application.application_id = presentIds l := by
    intro l
    induction l with
    | nil => rfl
    | cons a rest ih =>
        cases h : a.application_id <;>
          simp [presentIds, List.filterMap_cons, h, ih]
  exact ⟨fun e => rfl, fun out => by simp [list_applications, hfm]⟩

/-- C10: `__aiter__` returns the stream object itself, so repeated calls all
yield the same iterator sharing the same inner cursor. -/
theorem aiter_returns_self (s : QChatStream) :
    s.aiter = s ∧ s.aiter.aiter = s.aiter ∧ s.aiter.inner = s.inner :=
  ⟨rfl, rfl, rfl⟩

end StreamQ
